import Mathlib

/-!
Verification development for the FleetStatus repository.

This file shallowly embeds the data-shaping core of the repository
(`src/repair_orders.py` and `src/dashboard.py`) in Lean 4:

* raw vendor JSON records are modelled by `JVal` and association lists;
* `FleetrockAPI.fetch_repair_orders`'s per-record processing loop is
  `processRecord` / `processAll` / `fetch_repair_orders`, with Python
  exceptions modelled by `Except String`;
* `FleetrockAPI._calculate_days_open` is `pyCalcDaysOpen`, with
  `datetime.fromisoformat` modelled by `parseIso` (the proleptic-Gregorian
  civil-calendar conversion used by CPython) and `datetime.now()` passed
  explicitly as an epoch-seconds parameter;
* `calculate_ro_metrics`, `calculate_fleet_metrics`, `generate_alerts`
  and the pandas merge chain of `dashboard.py`'s `main` are embedded over
  lists of rows, with pandas `NaN` means modelled by `RVal.nan` and
  pandas left merges (including their column-validation `KeyError` and
  suffixing behaviour) by `pdMerge`.

Machine floats are modelled by `Rat`; float formatting in alert strings is
abstracted by `toString` on `Rat`.
-/

/-- A JSON-like Python value, as delivered by the vendor APIs and stored in
DataFrame cells: `None`, booleans, numbers (floats modelled by `Rat`),
strings and lists. -/
inductive JVal where
  | null : JVal
  | bool (b : Bool) : JVal
  | num (q : Rat) : JVal
  | str (s : String) : JVal
  | list (xs : List JVal) : JVal

mutual

/-- Decidable equality on `JVal` (manual, because of the nested list). -/
def JVal.decEq : (a b : JVal) → Decidable (a = b)
  | .null, .null => .isTrue rfl
  | .bool a, .bool b =>
    if h : a = b then .isTrue (h ▸ rfl)
    else .isFalse (fun hh => h (JVal.bool.inj hh))
  | .num a, .num b =>
    if h : a = b then .isTrue (h ▸ rfl)
    else .isFalse (fun hh => h (JVal.num.inj hh))
  | .str a, .str b =>
    if h : a = b then .isTrue (h ▸ rfl)
    else .isFalse (fun hh => h (JVal.str.inj hh))
  | .list xs, .list ys =>
    match JVal.decEqList xs ys with
    | .isTrue h => .isTrue (h ▸ rfl)
    | .isFalse h => .isFalse (fun hh => h (JVal.list.inj hh))
  | .null, .bool _ => .isFalse (fun h => nomatch h)
  | .null, .num _ => .isFalse (fun h => nomatch h)
  | .null, .str _ => .isFalse (fun h => nomatch h)
  | .null, .list _ => .isFalse (fun h => nomatch h)
  | .bool _, .null => .isFalse (fun h => nomatch h)
  | .bool _, .num _ => .isFalse (fun h => nomatch h)
  | .bool _, .str _ => .isFalse (fun h => nomatch h)
  | .bool _, .list _ => .isFalse (fun h => nomatch h)
  | .num _, .null => .isFalse (fun h => nomatch h)
  | .num _, .bool _ => .isFalse (fun h => nomatch h)
  | .num _, .str _ => .isFalse (fun h => nomatch h)
  | .num _, .list _ => .isFalse (fun h => nomatch h)
  | .str _, .null => .isFalse (fun h => nomatch h)
  | .str _, .bool _ => .isFalse (fun h => nomatch h)
  | .str _, .num _ => .isFalse (fun h => nomatch h)
  | .str _, .list _ => .isFalse (fun h => nomatch h)
  | .list _, .null => .isFalse (fun h => nomatch h)
  | .list _, .bool _ => .isFalse (fun h => nomatch h)
  | .list _, .num _ => .isFalse (fun h => nomatch h)
  | .list _, .str _ => .isFalse (fun h => nomatch h)

/-- Decidable equality on lists of `JVal`. -/
def JVal.decEqList : (xs ys : List JVal) → Decidable (xs = ys)
  | [], [] => .isTrue rfl
  | [], _ :: _ => .isFalse (fun h => nomatch h)
  | _ :: _, [] => .isFalse (fun h => nomatch h)
  | x :: xs, y :: ys =>
    match JVal.decEq x y with
    | .isFalse h => .isFalse (fun hh => h (List.cons.inj hh).1)
    | .isTrue h1 =>
      match JVal.decEqList xs ys with
      | .isTrue h2 => .isTrue (by rw [h1, h2])
      | .isFalse h2 => .isFalse (fun hh => h2 (List.cons.inj hh).2)

end

instance : DecidableEq JVal := JVal.decEq

/-- Decidable equality for `Except` results, used to evaluate the embedded
fallible operations on concrete inputs. -/
instance {ε α : Type} [DecidableEq ε] [DecidableEq α] : DecidableEq (Except ε α)
  | .ok a, .ok b =>
    if h : a = b then .isTrue (h ▸ rfl)
    else .isFalse (fun hh => h (Except.ok.inj hh))
  | .error a, .error b =>
    if h : a = b then .isTrue (h ▸ rfl)
    else .isFalse (fun hh => h (Except.error.inj hh))
  | .ok _, .error _ => .isFalse (fun h => nomatch h)
  | .error _, .ok _ => .isFalse (fun h => nomatch h)

/-- Python truthiness test (`if not created_date: ...`) for `JVal`. -/
def jFalsy : JVal → Bool
  | .null => true
  | .bool b => !b
  | .num q => q == 0
  | .str s => s == ""
  | .list xs => xs.isEmpty

/-- A raw record (Python `dict` from JSON): an association list from keys to
values.  First binding wins, as in a `dict`. -/
abbrev RawRec := List (String × JVal)

/-- `d.get(k)` on a raw record: `none` models Python `None`. -/
def jGet (ro : RawRec) (k : String) : Option JVal :=
  (ro.find? (fun p => p.fst == k)).map (fun p => p.snd)

/-- `d.get(k, default)` on a raw record. -/
def jGetD (ro : RawRec) (k : String) (d : JVal) : JVal :=
  (jGet ro k).getD d

/-! ### Civil-calendar arithmetic (CPython `datetime` ordinal arithmetic) -/

/-- Gregorian leap-year test. -/
def isLeap (y : Nat) : Bool :=
  (y % 4 == 0 && y % 100 != 0) || y % 400 == 0

/-- Days in a month of the proleptic Gregorian calendar. -/
def daysInMonth (y mo : Nat) : Nat :=
  if mo == 2 then (if isLeap y then 29 else 28)
  else if mo == 4 || mo == 6 || mo == 9 || mo == 11 then 30
  else 31

/-- Number of days from 1970-01-01 to the given civil date (may be negative),
by the standard days-from-civil algorithm. -/
def daysFromCivil (y m d : Int) : Int :=
  let yy : Int := if m ≤ 2 then y - 1 else y
  let era : Int := Int.fdiv yy 400
  let yoe : Int := yy - era * 400
  let mp : Int := Int.emod (m + 9) 12
  let doy : Int := Int.fdiv (153 * mp + 2) 5 + d - 1
  let doe : Int := yoe * 365 + Int.fdiv yoe 4 - Int.fdiv yoe 100 + doy
  era * 146097 + doe - 719468

/-- Seconds since the Unix epoch of a civil date-time. -/
def epochSecs (y mo d h mi se : Nat) : Int :=
  daysFromCivil y mo d * 86400 + h * 3600 + mi * 60 + se

/-! ### `datetime.fromisoformat` model -/

/-- Numeric value of a decimal digit character. -/
def digitVal (c : Char) : Option Nat :=
  if c.isDigit then some (c.toNat - 48) else none

/-- Two decimal digits as a number. -/
def num2 (a b : Char) : Option Nat := do
  pure ((← digitVal a) * 10 + (← digitVal b))

/-- Four decimal digits as a number. -/
def num4 (a b c d : Char) : Option Nat := do
  pure (((← digitVal a) * 10 + (← digitVal b)) * 100 + ((← digitVal c) * 10 + (← digitVal d)))

/-- Range-check a parsed date-time and convert it to epoch seconds, as
`datetime` validates its components (`MINYEAR = 1`). -/
def mkEpoch (y mo d h mi se : Nat) : Option Int :=
  if 1 ≤ y ∧ y ≤ 9999 ∧ 1 ≤ mo ∧ mo ≤ 12 ∧ 1 ≤ d ∧ d ≤ daysInMonth y mo
      ∧ h ≤ 23 ∧ mi ≤ 59 ∧ se ≤ 59
  then some (epochSecs y mo d h mi se) else none

/-- Model of `datetime.fromisoformat` (the subset the repository exercises):
`YYYY-MM-DD`, optionally followed by any single separator character and
`HH:MM` or `HH:MM:SS`.  Returns epoch seconds, or `none` for a
`ValueError`. -/
def parseIso (s : String) : Option Int :=
  match s.toList with
  | [y1, y2, y3, y4, '-', m1, m2, '-', d1, d2] => do
      mkEpoch (← num4 y1 y2 y3 y4) (← num2 m1 m2) (← num2 d1 d2) 0 0 0
  | [y1, y2, y3, y4, '-', m1, m2, '-', d1, d2, _, h1, h2, ':', n1, n2] => do
      mkEpoch (← num4 y1 y2 y3 y4) (← num2 m1 m2) (← num2 d1 d2)
        (← num2 h1 h2) (← num2 n1 n2) 0
  | [y1, y2, y3, y4, '-', m1, m2, '-', d1, d2, _, h1, h2, ':', n1, n2, ':', s1, s2] => do
      mkEpoch (← num4 y1 y2 y3 y4) (← num2 m1 m2) (← num2 d1 d2)
        (← num2 h1 h2) (← num2 n1 n2) (← num2 s1 s2)
  | _ => none

/-- Python `s.rstrip("Z")`: remove every trailing `'Z'`. -/
def rstripZ (s : String) : String :=
  String.mk ((s.toList.reverse.dropWhile (fun c => c == 'Z')).reverse)

/-- `FleetrockAPI._calculate_days_open` (src/repair_orders.py:189-200), with
`datetime.now()` as the explicit `now` (epoch seconds) and the argument as the
raw value of `ro.get("created_date", "")`.  Returns the day count paired with
whether `logging.warning` fired; a non-string truthy argument raises
`AttributeError` on `.rstrip` (only `ValueError` is caught by the function). -/
def pyCalcDaysOpen (now : Int) (v : JVal) : Except String (Int × Bool) :=
  if jFalsy v then .ok (0, false)
  else match v with
    | .str s =>
      match parseIso (rstripZ s) with
      | some created => .ok (Int.fdiv (now - created) 86400, false)
      | none => .ok (0, true)
    | _ => .error "AttributeError: rstrip"

/-! ### Python `float(...)` and `", ".join(...)` models -/

/-- Digits of a character list interpreted as a natural number, accumulator
form (`[] ↦ acc`, so an absent integer part such as in ".5" counts as 0). -/
def digitsValAux : List Char → Nat → Nat
  | [], acc => acc
  | c :: cs, acc => digitsValAux cs (acc * 10 + (c.toNat - 48))

/-- Unsigned decimal literal accepted by Python `float`:
`digits`, `digits.`, `digits.digits` or `.digits`. -/
def parseUnsignedFloat (cs : List Char) : Option Rat :=
  let ip := cs.takeWhile (fun c => c.isDigit)
  let rest := cs.dropWhile (fun c => c.isDigit)
  match rest with
  | [] => if ip.isEmpty then none else some (digitsValAux ip 0)
  | '.' :: fp =>
    if fp.all (fun c => c.isDigit) && !(ip.isEmpty && fp.isEmpty) then
      some ((digitsValAux ip 0 : Rat) + (digitsValAux fp 0 : Rat) / ((10 : Rat) ^ fp.length))
    else none
  | _ => none

/-- Model of Python `float(s)` on strings (the decimal subset; exponent and
special forms are out of scope for the repository's data). -/
def parseFloatStr (s : String) : Option Rat :=
  let cs := (s.toList.dropWhile (fun c => c.isWhitespace)).reverse.dropWhile
    (fun c => c.isWhitespace) |>.reverse
  match cs with
  | '-' :: rest => (parseUnsignedFloat rest).map (fun q => -q)
  | '+' :: rest => parseUnsignedFloat rest
  | rest => parseUnsignedFloat rest

/-- Python `float(v)` on a JSON value: numbers and booleans convert, numeric
strings parse, everything else raises. -/
def pyFloat : JVal → Except String Rat
  | .num q => .ok q
  | .bool b => .ok (if b then 1 else 0)
  | .str s =>
    match parseFloatStr s with
    | some q => .ok q
    | none => .error "ValueError: could not convert string to float"
  | .null => .error "TypeError: float() argument is None"
  | .list _ => .error "TypeError: float() argument is a list"

/-- Extract the strings of a list of values; `none` when some element is not
a string. -/
def strList : List JVal → Option (List String)
  | [] => some []
  | .str s :: rest => (strList rest).map (fun l => s :: l)
  | _ => none

/-- Python `sep.join(xs)`: every element must be a string, otherwise a
`TypeError` is raised. -/
def pyJoin (sep : String) (xs : List JVal) : Except String String :=
  match strList xs with
  | some strs => .ok (String.intercalate sep strs)
  | none => .error "TypeError: sequence item: expected str instance"

/-! ### `FleetrockAPI.fetch_repair_orders` record processing
(src/repair_orders.py:146-179) -/

/-- The `tasks` entry of a processed repair order
(src/repair_orders.py:164): a list joins with `", "`, any other present
value passes through unchanged, an absent value defaults to `""`. -/
def normTasks (ro : RawRec) : Except String JVal :=
  match jGet ro "tasks" with
  | some (.list xs) => (pyJoin ", " xs).map JVal.str
  | some v => .ok v
  | none => .ok (.str "")

/-- The `parts_needed` entry of a processed repair order
(src/repair_orders.py:165): a list joins with `", "`, any other value —
including a string — is replaced by `""`. -/
def normParts (ro : RawRec) : Except String String :=
  match jGet ro "parts_needed" with
  | some (.list xs) => pyJoin ", " xs
  | _ => .ok ""

/-- Zero-padded four-digit order-number suffix (`f"RO-{n:04d}"`). -/
def pad4 (n : Nat) : String :=
  if n < 10 then "000" ++ toString n
  else if n < 100 then "00" ++ toString n
  else if n < 1000 then "0" ++ toString n
  else toString n

/-- One row of the processed repair-order DataFrame, with the fixed schema
built at src/repair_orders.py:153-176.  Fields taken verbatim from the raw
record stay `JVal`; converted fields get their converted type. -/
structure ProcessedRO where
  ro_number : JVal
  unit_number : JVal
  vin : JVal
  status : JVal
  priority : JVal
  created_date : JVal
  due_date : JVal
  days_open : Int
  estimated_completion : JVal
  description : JVal
  tasks : JVal
  parts_needed : String
  total_cost : Rat
  labor_hours : Rat
  parts_cost : Rat
  labor_cost : Rat
  technician : JVal
  location : JVal
  customer_name : JVal
  customer_contact : JVal
  notes : JVal
  warranty : JVal
  deriving DecidableEq

/-- Processing of one raw repair order inside the loop of
`FleetrockAPI.fetch_repair_orders` (src/repair_orders.py:148-177).
`now` is `datetime.now()` in epoch seconds and `idx` is
`len(processed_ros)` at that point; any Python exception raised while
building the row surfaces as `.error`. -/
def processRecord (now : Int) (idx : Nat) (ro : RawRec) : Except String ProcessedRO := do
  let created_date := jGetD ro "created_date" (.str "")
  let due_date := jGetD ro "due_date" (.str "")
  let daysOpen ← pyCalcDaysOpen now created_date
  let tasks ← normTasks ro
  let parts ← normParts ro
  let totalCost ← pyFloat (jGetD ro "total_cost" (.num 0))
  let laborHours ← pyFloat (jGetD ro "labor_hours" (.num 0))
  let partsCost ← pyFloat (jGetD ro "parts_cost" (.num 0))
  let laborCost ← pyFloat (jGetD ro "labor_cost" (.num 0))
  .ok
    { ro_number := jGetD ro "ro_number" (.str ("RO-" ++ pad4 (idx + 1)))
      unit_number := jGetD ro "unit_number" (.str "")
      vin := jGetD ro "vin" (.str "")
      status := jGetD ro "status" (.str "open")
      priority := jGetD ro "priority" (.str "medium")
      created_date := created_date
      due_date := due_date
      days_open := daysOpen.fst
      estimated_completion := jGetD ro "estimated_completion" (.str "")
      description := jGetD ro "description" (.str "")
      tasks := tasks
      parts_needed := parts
      total_cost := totalCost
      labor_hours := laborHours
      parts_cost := partsCost
      labor_cost := laborCost
      technician := jGetD ro "technician" (.str "Unassigned")
      location := jGetD ro "location" (.str "Main Shop")
      customer_name := jGetD ro "customer_name" (.str "")
      customer_contact := jGetD ro "customer_contact" (.str "")
      notes := jGetD ro "notes" (.str "")
      warranty := jGetD ro "warranty" (.bool false) }

/-- The whole `for ro in ro_list` loop: records are processed in order and
the first exception aborts the remainder (the loop body runs inside the
single batch-level `try`). -/
def processAll (now : Int) : Nat → List RawRec → Except String (List ProcessedRO)
  | _, [] => .ok []
  | idx, ro :: rest => do
    let r ← processRecord now idx ro
    let rs ← processAll now (idx + 1) rest
    .ok (r :: rs)

/-- `FleetrockAPI.fetch_repair_orders` after a successful HTTP 200 response
(src/repair_orders.py:146-187): on any exception during processing, the
batch-level `except` logs an error (second component `true`) and returns an
empty DataFrame. -/
def fetch_repair_orders (now : Int) (ro_list : List RawRec) : List ProcessedRO × Bool :=
  match processAll now 0 ro_list with
  | .ok rows => (rows, false)
  | .error _ => ([], true)

/-! ### Metrics aggregators -/

/-- A Python float result that may be `NaN` (what pandas `Series.mean`
returns on an empty selection). -/
inductive RVal where
  | nan : RVal
  | num (q : Rat) : RVal
  deriving DecidableEq

/-- pandas `Series.mean`: `NaN` on an empty series, otherwise the mean. -/
def pmean (xs : List Rat) : RVal :=
  if xs.isEmpty then .nan else .num (xs.sum / (xs.length : Rat))

/-- The metrics mapping returned by `calculate_ro_metrics`
(src/repair_orders.py:254-277). -/
structure RoMetrics where
  total_ros : Nat
  open_ros : Nat
  closed_ros : Nat
  pending_ros : Nat
  avg_days_open : RVal
  total_cost : Rat
  avg_labor_hours : RVal
  unassigned_ros : Nat
  deriving DecidableEq

/-- The all-zero mapping returned for an empty DataFrame
(src/repair_orders.py:256-266). -/
def zeroRoMetrics : RoMetrics :=
  { total_ros := 0, open_ros := 0, closed_ros := 0, pending_ros := 0
    avg_days_open := .num 0, total_cost := 0, avg_labor_hours := .num 0
    unassigned_ros := 0 }

/-- `calculate_ro_metrics` (src/repair_orders.py:254-277). -/
def calculate_ro_metrics (df : List ProcessedRO) : RoMetrics :=
  if df.isEmpty then zeroRoMetrics
  else
    { total_ros := df.length
      open_ros := (df.filter (fun r => decide (r.status = .str "open"))).length
      closed_ros := (df.filter (fun r => decide (r.status = .str "closed"))).length
      pending_ros := (df.filter (fun r => decide (r.status = .str "pending"))).length
      avg_days_open :=
        if !(df.filter (fun r => decide (r.status = .str "open"))).isEmpty then
          pmean ((df.filter (fun r => decide (r.status = .str "open"))).map
            (fun r => (r.days_open : Rat)))
        else .num 0
      total_cost := (df.map (fun r => r.total_cost)).sum
      avg_labor_hours :=
        if !df.isEmpty then pmean (df.map (fun r => r.labor_hours)) else .num 0
      unassigned_ros :=
        (df.filter (fun r => decide (r.technician = .str "Unassigned"))).length }

/-- A row of the vehicles DataFrame built by `SamsaraAPI.fetch_vehicles`
(src/dashboard.py:80-93); `v.get(...)` has no default, so every field is
optional. -/
structure VehicleRow where
  id : Option JVal
  name : Option JVal
  vin : Option JVal
  make : Option JVal
  model : Option JVal
  year : Option JVal
  license_plate : Option JVal
  serial : Option JVal
  deriving DecidableEq

/-- A raw per-vehicle stats payload consumed by
`SamsaraAPI.fetch_vehicle_stats` (src/dashboard.py:130-138). -/
structure RawStat where
  speedMilesPerHour : Option Rat
  fuelPercent : Option Rat
  engineHours : Option Rat
  odometerMiles : Option Rat
  engineState : Option String
  deriving DecidableEq

/-- A row of the stats DataFrame built at src/dashboard.py:131-138. -/
structure StatRow where
  vehicle_id : String
  speed_mph : Rat
  fuel_percent : Rat
  engine_hours : Rat
  odometer_miles : Rat
  status : String
  deriving DecidableEq

/-- The per-vehicle row construction of `SamsaraAPI.fetch_vehicle_stats`
(src/dashboard.py:131-138), including the inline status classification. -/
def normalizeStat (vid : String) (s : RawStat) : StatRow :=
  { vehicle_id := vid
    speed_mph := s.speedMilesPerHour.getD 0
    fuel_percent := s.fuelPercent.getD 0
    engine_hours := s.engineHours.getD 0
    odometer_miles := s.odometerMiles.getD 0
    status :=
      if s.speedMilesPerHour.getD 0 > 0 then "moving"
      else if s.engineState = some "Running" then "idle"
      else "offline" }

/-- Spec-side definition of the status classification, following the words of
spec §4.4 Contract A: `moving` if speed > 0, else `idle` if the engine state
string equals "Running", else `offline`. -/
def classifyStatus (speed : Rat) (engineState : String) : String :=
  if speed > 0 then "moving"
  else if engineState = "Running" then "idle"
  else "offline"

/-- The metrics mapping returned by `calculate_fleet_metrics`
(src/dashboard.py:171-192). -/
structure FleetMetrics where
  total_vehicles : Nat
  moving : Nat
  idle : Nat
  offline : Nat
  avg_speed : RVal
  total_engine_hours : Rat
  low_fuel : Nat
  deriving DecidableEq

/-- The all-zero mapping returned when either input DataFrame is empty
(src/dashboard.py:173-182). -/
def zeroFleetMetrics : FleetMetrics :=
  { total_vehicles := 0, moving := 0, idle := 0, offline := 0
    avg_speed := .num 0, total_engine_hours := 0, low_fuel := 0 }

/-- `calculate_fleet_metrics` (src/dashboard.py:171-192). -/
def calculate_fleet_metrics (vehicles_df : List VehicleRow) (stats_df : List StatRow) :
    FleetMetrics :=
  if vehicles_df.isEmpty || stats_df.isEmpty then zeroFleetMetrics
  else
    { total_vehicles := vehicles_df.length
      moving := (stats_df.filter (fun r => decide (r.status = "moving"))).length
      idle := (stats_df.filter (fun r => decide (r.status = "idle"))).length
      offline := (stats_df.filter (fun r => decide (r.status = "offline"))).length
      avg_speed := pmean (stats_df.map (fun r => r.speed_mph))
      total_engine_hours := (stats_df.map (fun r => r.engine_hours)).sum
      low_fuel := (stats_df.filter (fun r => decide (r.fuel_percent < 20))).length }

/-! ### Alert generation (src/dashboard.py:194-202) -/

/-- The body of the `for _, row in stats_df.iterrows()` loop of
`generate_alerts` (src/dashboard.py:197-201): append a speeding alert and
then a low-fuel alert for the row.  (Numeric formatting inside the f-strings
is abstracted by `toString`.) -/
def alertStep (alerts : List String) (row : StatRow) : List String :=
  let alerts :=
    if row.speed_mph > 80 then
      alerts ++ ["Vehicle " ++ row.vehicle_id ++ ": Speeding ("
        ++ toString row.speed_mph ++ " mph)"]
    else alerts
  if row.fuel_percent < 20 then
    alerts ++ ["Vehicle " ++ row.vehicle_id ++ ": Low fuel ("
      ++ toString row.fuel_percent ++ "%)"]
  else alerts

/-- `generate_alerts` (src/dashboard.py:194-202): fold the loop body over the
rows, starting from `alerts = []`. -/
def generate_alerts (stats_df : List StatRow) : List String :=
  stats_df.foldl alertStep []

/-- Spec-side description of the alerts one row contributes, in
row-then-condition order (spec §4.4 Contract C): the speeding alert, if any,
precedes the low-fuel alert. -/
def rowAlerts (row : StatRow) : List String :=
  (if row.speed_mph > 80 then
    ["Vehicle " ++ row.vehicle_id ++ ": Speeding (" ++ toString row.speed_mph ++ " mph)"]
  else [])
  ++
  (if row.fuel_percent < 20 then
    ["Vehicle " ++ row.vehicle_id ++ ": Low fuel (" ++ toString row.fuel_percent ++ "%)"]
  else [])

/-! ### pandas left-merge model (src/dashboard.py:236-239) -/

/-- A pandas DataFrame: a column-name list and rows of cells (`none` models
`NaN`/null).  `pd.DataFrame([])`, as returned by the fetchers on failure or
no data, has no columns at all. -/
structure DF where
  cols : List String
  rows : List (List (Option JVal))
  deriving DecidableEq

/-- Index of a column name. -/
def DF.colIdx (cols : List String) (c : String) : Option Nat :=
  cols.findIdx? (fun x => x == c)

/-- Cell of a row under a column-name list (`none` when the column is absent
or the cell is null). -/
def DF.cellAt (cols : List String) (row : List (Option JVal)) (c : String) : Option JVal :=
  match DF.colIdx cols c with
  | some i => (row.get? i).join
  | none => none

/-- `left.merge(right, left_on, right_on, how="left", suffixes=(sl, sr))`.
Validation first: a join key absent from either frame raises `KeyError`
(hence an empty, column-less frame can never be merged on a key).  When both
keys are the same name (`on=`), the key column appears once; otherwise both
key columns are kept and every overlapping column name is suffixed.  Rows:
each left row is kept (left-outer), joined to each right row with an equal
non-null key, right columns null when no match; null keys never match. -/
def pdMerge (l r : DF) (lOn rOn : String) (sl sr : String) : Except String DF :=
  if !(l.cols.contains lOn) then .error ("KeyError: " ++ lOn)
  else if !(r.cols.contains rOn) then .error ("KeyError: " ++ rOn)
  else
    let sameKey := lOn == rOn
    let ovl := fun c => l.cols.contains c && r.cols.contains c
    let lCols := l.cols.map (fun c => if ovl c && !(sameKey && c == lOn) then c ++ sl else c)
    let rColsBase := if sameKey then r.cols.filter (fun c => c != rOn) else r.cols
    let rCols := rColsBase.map (fun c => if ovl c && !(sameKey && c == rOn) then c ++ sr else c)
    let rRowProj := fun (row : List (Option JVal)) =>
      if sameKey then
        match DF.colIdx r.cols rOn with
        | some i => row.eraseIdx i
        | none => row
      else row
    let newRows := l.rows.flatMap (fun lr =>
      let k := DF.cellAt l.cols lr lOn
      let hits := r.rows.filter (fun rr =>
        match k, DF.cellAt r.cols rr rOn with
        | some kv, some rv => decide (kv = rv)
        | _, _ => false)
      if hits.isEmpty then [lr ++ List.replicate rCols.length none]
      else hits.map (fun rr => lr ++ rRowProj rr))
    .ok { cols := lCols ++ rCols, rows := newRows }

/-- The merge chain of `dashboard.py`'s `main` (src/dashboard.py:236-239):
vehicles ⟕ stats ⟕ locations ⟕ assignments ⟕ drivers, with pandas' default
`("_x", "_y")` suffixes except the final `("", "_driver")`. -/
def mergeVehicleData (vehicles stats locations assignments drivers : DF) :
    Except String DF := do
  let m1 ← pdMerge vehicles stats "id" "vehicle_id" "_x" "_y"
  let m2 ← pdMerge m1 locations "id" "vehicle_id" "_x" "_y"
  let m3 ← pdMerge m2 assignments "vehicle_id" "vehicle_id" "_x" "_y"
  let m4 ← pdMerge m3 drivers "driver_id" "id" "" "_driver"
  .ok m4

/-- `pd.DataFrame([])`: what every fetcher returns on failure or when no
records arrive — no columns, no rows. -/
def emptyDF : DF := { cols := [], rows := [] }

/-- A one-vehicle vehicles DataFrame, with the schema built by
`SamsaraAPI.fetch_vehicles` (src/dashboard.py:83-92). -/
def oneVehicleDF : DF :=
  { cols := ["id", "name", "vin", "make", "model", "year", "license_plate", "serial"]
    rows := [[some (.str "V1"), some (.str "Truck 1"), some (.str "VIN1"),
      some (.str "Make"), some (.str "Model"), some (.num 2020),
      some (.str "PLT-1"), some (.str "S1")]] }

/-! ## Helper lemmas -/

/-- The success of `processRecord` does not depend on the running index,
which is only used to generate the default order number. -/
lemma processRecord_isOk_idx (now : Int) (i j : Nat) (ro : RawRec) :
    (processRecord now i ro).isOk = (processRecord now j ro).isOk := by
  simp only [processRecord]
  cases h1 : pyCalcDaysOpen now (jGetD ro "created_date" (JVal.str "")) with
  | error e => rfl
  | ok d =>
    cases h2 : normTasks ro with
    | error e => rfl
    | ok t =>
      cases h3 : normParts ro with
      | error e => rfl
      | ok p =>
        cases h4 : pyFloat (jGetD ro "total_cost" (JVal.num 0)) with
        | error e => rfl
        | ok tc =>
          cases h5 : pyFloat (jGetD ro "labor_hours" (JVal.num 0)) with
          | error e => rfl
          | ok lh =>
            cases h6 : pyFloat (jGetD ro "parts_cost" (JVal.num 0)) with
            | error e => rfl
            | ok pc =>
              cases h7 : pyFloat (jGetD ro "labor_cost" (JVal.num 0)) with
              | error e => rfl
              | ok lc => rfl

/-- A successfully processed record carries the raw `created_date` value, a
`days_open` produced by `pyCalcDaysOpen`, and the `tasks`/`parts_needed`
normalizations. -/
lemma processRecord_ok_fields (now : Int) (idx : Nat) (ro : RawRec) (rec : ProcessedRO)
    (h : processRecord now idx ro = .ok rec) :
    rec.created_date = jGetD ro "created_date" (JVal.str "") ∧
    (∃ w, pyCalcDaysOpen now (jGetD ro "created_date" (JVal.str "")) = .ok (rec.days_open, w)) ∧
    normTasks ro = .ok rec.tasks ∧
    normParts ro = .ok rec.parts_needed := by
  simp only [processRecord] at h
  cases h1 : pyCalcDaysOpen now (jGetD ro "created_date" (JVal.str "")) with
  | error e => rw [h1] at h; exact absurd h (by simp [Bind.bind, Except.bind])
  | ok d =>
    rw [h1] at h
    cases h2 : normTasks ro with
    | error e => rw [h2] at h; exact absurd h (by simp [Bind.bind, Except.bind])
    | ok t =>
      rw [h2] at h
      cases h3 : normParts ro with
      | error e => rw [h3] at h; exact absurd h (by simp [Bind.bind, Except.bind])
      | ok p =>
        rw [h3] at h
        cases h4 : pyFloat (jGetD ro "total_cost" (JVal.num 0)) with
        | error e => rw [h4] at h; exact absurd h (by simp [Bind.bind, Except.bind])
        | ok tc =>
          rw [h4] at h
          cases h5 : pyFloat (jGetD ro "labor_hours" (JVal.num 0)) with
          | error e => rw [h5] at h; exact absurd h (by simp [Bind.bind, Except.bind])
          | ok lh =>
            rw [h5] at h
            cases h6 : pyFloat (jGetD ro "parts_cost" (JVal.num 0)) with
            | error e => rw [h6] at h; exact absurd h (by simp [Bind.bind, Except.bind])
            | ok pc =>
              rw [h6] at h
              cases h7 : pyFloat (jGetD ro "labor_cost" (JVal.num 0)) with
              | error e => rw [h7] at h; exact absurd h (by simp [Bind.bind, Except.bind])
              | ok lc =>
                rw [h7] at h
                simp only [Bind.bind, Except.bind] at h
                injection h with h'
                subst h'
                exact ⟨rfl, ⟨d.2, rfl⟩, rfl, rfl⟩

/-- If some record in the batch fails processing, the whole loop fails. -/
lemma processAll_isOk_false (now : Int) :
    ∀ (ros : List RawRec) (idx : Nat) (ro : RawRec), ro ∈ ros →
      (processRecord now 0 ro).isOk = false → (processAll now idx ros).isOk = false := by
  intro ros
  induction ros with
  | nil => intro idx ro h; cases h
  | cons a rest ih =>
    intro idx ro hmem hbad
    rcases List.mem_cons.mp hmem with heq | hmem2
    · subst heq
      have hfail : (processRecord now idx ro).isOk = false :=
        (processRecord_isOk_idx now idx 0 ro).trans hbad
      cases h : processRecord now idx ro with
      | error e => simp [processAll, h, Bind.bind, Except.bind, Except.isOk, Except.toBool]
      | ok r => rw [h] at hfail; simp [Except.isOk, Except.toBool] at hfail
    · cases h : processRecord now idx a with
      | error e => simp [processAll, h, Bind.bind, Except.bind, Except.isOk, Except.toBool]
      | ok r =>
        have hrest := ih (idx + 1) ro hmem2 hbad
        cases h2 : processAll now (idx + 1) rest with
        | error e => simp [processAll, h, h2, Bind.bind, Except.bind, Except.isOk, Except.toBool]
        | ok l => rw [h2] at hrest; simp [Except.isOk, Except.toBool] at hrest

/-- Joining a list of strings never raises and intercalates. -/
lemma pyJoin_strs (sep : String) (xs : List String) :
    pyJoin sep (xs.map JVal.str) = .ok (String.intercalate sep xs) := by
  unfold pyJoin
  have h : strList (xs.map JVal.str) = some xs := by
    induction xs with
    | nil => rfl
    | cons a rest ih => simp [strList, ih]
  rw [h]

/-- One pass of the alert loop appends exactly the row's alerts. -/
lemma alertStep_eq (acc : List String) (r : StatRow) :
    alertStep acc r = acc ++ rowAlerts r := by
  unfold alertStep rowAlerts
  by_cases h1 : r.speed_mph > 80 <;> by_cases h2 : r.fuel_percent < 20 <;>
    simp [h1, h2]

/-- The alert fold from any accumulator appends the per-row alerts in row
order. -/
lemma generate_alerts_aux (rows : List StatRow) :
    ∀ acc : List String, rows.foldl alertStep acc = acc ++ rows.flatMap rowAlerts := by
  induction rows with
  | nil => intro acc; simp
  | cons r rest ih =>
    intro acc
    simp only [List.foldl_cons, List.flatMap_cons, ih, alertStep_eq]
    simp [List.append_assoc]

/-- `pyCalcDaysOpen` yields a non-negative count whenever the value is not a
string parsing to a timestamp after `now`. -/
lemma pyCalcDaysOpen_nonneg (now : Int) (v : JVal) (d : Int) (w : Bool)
    (h : pyCalcDaysOpen now v = .ok (d, w))
    (hp : ∀ s t, v = .str s → parseIso (rstripZ s) = some t → t ≤ now) :
    0 ≤ d := by
  unfold pyCalcDaysOpen at h
  by_cases hf : jFalsy v
  · simp [hf] at h
    omega
  · simp [hf] at h
    cases v with
    | str s =>
      simp only [] at h
      split at h
      · simp at h
        have hle := hp s _ rfl (by assumption)
        rw [← h.1]
        exact Int.fdiv_nonneg (by omega) (by norm_num)
      · simp at h
        omega
    | null => simp at h
    | bool b => simp at h
    | num q => simp at h
    | list xs => simp at h

/-! ## Claim theorems -/

/-- Claim C1, counterexample: a batch of two records in which only the second
has a malformed cost field (`total_cost = "abc"`) yields an empty result with
a logged error, even though the first record processes successfully — the
failure empties the whole batch instead of dropping the single bad record. -/
theorem C1_counterexample_single_failure_empties_batch :
    fetch_repair_orders 0 [[], [("total_cost", JVal.str "abc")]] = ([], true) ∧
    (processRecord 0 0 ([] : RawRec)).isOk = true ∧
    (processRecord 0 1 [("total_cost", JVal.str "abc")]).isOk = false := by
  refine ⟨by decide, by decide, by decide⟩

/-- Claim C1, amended: if any record of the batch fails normalization (e.g. a
cost field that cannot be converted to a number), the batch-level exception
handler logs an error and returns an empty result, discarding every record of
the batch; the failure is not confined to the failing record. -/
theorem C1_amended_any_failure_empties_batch (now : Int) (ros : List RawRec)
    (ro : RawRec) (hmem : ro ∈ ros)
    (hbad : (processRecord now 0 ro).isOk = false) :
    fetch_repair_orders now ros = ([], true) := by
  have h := processAll_isOk_false now ros 0 ro hmem hbad
  unfold fetch_repair_orders
  cases h2 : processAll now 0 ros with
  | error e => rfl
  | ok l => rw [h2] at h; simp [Except.isOk, Except.toBool] at h

/-- Claim C1, witness: the amended theorem applied to the two-record batch
with one malformed cost field. -/
theorem C1_witness :
    fetch_repair_orders 0 [[], [("total_cost", JVal.str "abc")]] = ([], true) :=
  C1_amended_any_failure_empties_batch 0 [[], [("total_cost", JVal.str "abc")]]
    [("total_cost", JVal.str "abc")] (by decide) (by decide)

/-- A repair order whose status is "closed", used to exercise the aggregator
on a non-empty table with no open rows. -/
def sampleClosedRO : ProcessedRO :=
  { ro_number := .str "RO-0001", unit_number := .str "", vin := .str ""
    status := .str "closed", priority := .str "medium", created_date := .str ""
    due_date := .str "", days_open := 0, estimated_completion := .str ""
    description := .str "", tasks := .str "", parts_needed := ""
    total_cost := 0, labor_hours := 0, parts_cost := 0, labor_cost := 0
    technician := .str "Unassigned", location := .str "Main Shop"
    customer_name := .str "", customer_contact := .str "", notes := .str ""
    warranty := .bool false }

/-- Claim C2: the RO aggregator on an empty table and the fleet aggregator on
empty tables return the all-zero mappings (zero counts and zero means, never
`NaN`), and the mean days-open restricted to status == "open" rows is 0
whenever there are no open rows. -/
theorem C2_empty_selection_means_zero :
    calculate_ro_metrics [] = zeroRoMetrics ∧
    calculate_fleet_metrics [] [] = zeroFleetMetrics ∧
    ∀ df : List ProcessedRO,
      (df.filter (fun r => decide (r.status = .str "open"))).isEmpty = true →
      (calculate_ro_metrics df).avg_days_open = .num 0 := by
  refine ⟨by decide, by decide, ?_⟩
  intro df h
  unfold calculate_ro_metrics
  by_cases hd : df.isEmpty
  · simp [hd, zeroRoMetrics]
  · simp [hd, h]

/-- Claim C2, witness: a one-row table whose only record is closed has mean
days-open 0. -/
theorem C2_witness :
    (calculate_ro_metrics [sampleClosedRO]).avg_days_open = .num 0 :=
  C2_empty_selection_means_zero.2.2 [sampleClosedRO] (by decide)

/-- Claim C3: joining a non-empty vehicles table with empty stats, locations
and assignment DataFrames does not produce one row per vehicle — the very
first pandas merge raises `KeyError: vehicle_id`, because the empty frame
returned by the fetchers has no columns at all, so the whole page crashes
instead of returning a row per vehicle with null join columns. -/
theorem C3_merge_with_empty_frames_raises :
    mergeVehicleData oneVehicleDF emptyDF emptyDF emptyDF emptyDF =
      .error "KeyError: vehicle_id" ∧
    oneVehicleDF.rows.length = 1 := by
  decide

/-- Claim C4, counterexample: normalizing a record whose `parts_needed` is
already the string "A, B" yields the empty string, not the same string — the
`else` branch of the `parts_needed` expression is `""`, not a pass-through. -/
theorem C4_counterexample_parts_string_dropped :
    (processRecord 0 0 [("parts_needed", JVal.str "A, B")]).map
      (fun r => r.parts_needed) = .ok "" ∧
    ("" : String) ≠ "A, B" := by
  refine ⟨by decide, by decide⟩

/-- Claim C4, amended: `tasks` behaves as claimed — a list of strings joins
to the comma-space-separated string and a string passes through unchanged
(so re-normalization is idempotent on it) — while `parts_needed` joins lists
but replaces a string (or any non-list) value with the empty string; within a
successfully processed record, the `tasks` and `parts_needed` fields are
exactly these normalizations. -/
theorem C4_amended_list_field_normalization :
    (∀ (ro : RawRec) (s : String), jGet ro "tasks" = some (.str s) →
      normTasks ro = .ok (.str s)) ∧
    (∀ (ro : RawRec) (xs : List String), jGet ro "tasks" = some (.list (xs.map JVal.str)) →
      normTasks ro = .ok (.str (String.intercalate ", " xs))) ∧
    (∀ (ro : RawRec) (xs : List String),
      jGet ro "parts_needed" = some (.list (xs.map JVal.str)) →
      normParts ro = .ok (String.intercalate ", " xs)) ∧
    (∀ (ro : RawRec) (s : String), jGet ro "parts_needed" = some (.str s) →
      normParts ro = .ok "") ∧
    (∀ (now : Int) (idx : Nat) (ro : RawRec) (rec : ProcessedRO),
      processRecord now idx ro = .ok rec →
      normTasks ro = .ok rec.tasks ∧ normParts ro = .ok rec.parts_needed) := by
  refine ⟨?_, ?_, ?_, ?_, ?_⟩
  · intro ro s h
    simp [normTasks, h]
  · intro ro xs h
    simp [normTasks, h, pyJoin_strs, Except.map]
  · intro ro xs h
    simp [normParts, h, pyJoin_strs]
  · intro ro s h
    simp [normParts, h]
  · intro now idx ro rec h
    exact ⟨(processRecord_ok_fields now idx ro rec h).2.2.1,
      (processRecord_ok_fields now idx ro rec h).2.2.2⟩

/-- Claim C4, witness: the amended theorem applied to `tasks = ["A", "B"]`
(joins to "A, B") and to `tasks = "A, B"` (passes through unchanged). -/
theorem C4_witness :
    normTasks [("tasks", JVal.list [JVal.str "A", JVal.str "B"])] = .ok (.str "A, B") ∧
    normTasks [("tasks", JVal.str "A, B")] = .ok (.str "A, B") := by
  constructor
  · exact (C4_amended_list_field_normalization.2.1
      [("tasks", JVal.list [JVal.str "A", JVal.str "B"])] ["A", "B"]
      (by decide)).trans (by decide)
  · exact C4_amended_list_field_normalization.1 [("tasks", JVal.str "A, B")] "A, B"
      (by decide)

/-- Claim C5, counterexample: a record created on 2024-02-01, normalized when
the current time is 2024-01-01 (a future creation timestamp), has
`days_open = -31 < 0` — the derived field is not always ≥ 0. -/
theorem C5_counterexample_negative_days_open :
    (processRecord (epochSecs 2024 1 1 0 0 0) 0
      [("created_date", JVal.str "2024-02-01T00:00:00Z")]).map
        (fun r => r.days_open) = .ok (-31) ∧
    (-31 : Int) < 0 := by
  refine ⟨by decide, by decide⟩

/-- Claim C5, amended: for every record produced by normalization, the derived
days-open field is an integer, and it is ≥ 0 whenever the record's creation
timestamp does not parse to a time later than the current time (missing and
unparseable timestamps give 0); a future creation timestamp yields a negative
value, which the code does not clamp. -/
theorem C5_amended_days_open_nonneg (now : Int) (idx : Nat) (ro : RawRec)
    (rec : ProcessedRO) (h : processRecord now idx ro = .ok rec)
    (hp : ∀ s t, rec.created_date = JVal.str s → parseIso (rstripZ s) = some t → t ≤ now) :
    0 ≤ rec.days_open := by
  obtain ⟨hcd, ⟨w, hdo⟩, -, -⟩ := processRecord_ok_fields now idx ro rec h
  exact pyCalcDaysOpen_nonneg now (jGetD ro "created_date" (JVal.str ""))
    rec.days_open w hdo (fun s t hs ht => hp s t (hcd.trans hs) ht)

/-- Claim C5, witness: the amended theorem applied to a record created on
2024-01-01 and normalized on 2024-03-01. -/
theorem C5_witness :
    0 ≤ (((processRecord (epochSecs 2024 3 1 0 0 0) 0
      [("created_date", JVal.str "2024-01-01T00:00:00Z")]).map
        (fun r => r.days_open)).toOption.getD 0) := by
  cases hrec : processRecord (epochSecs 2024 3 1 0 0 0) 0
      [("created_date", JVal.str "2024-01-01T00:00:00Z")] with
  | error e => simp [Except.map, Except.toOption]
  | ok rec =>
    have hcd : rec.created_date = JVal.str "2024-01-01T00:00:00Z" := by
      have hmap : (processRecord (epochSecs 2024 3 1 0 0 0) 0
          [("created_date", JVal.str "2024-01-01T00:00:00Z")]).map
            (fun r => r.created_date) = .ok (JVal.str "2024-01-01T00:00:00Z") := by decide
      rw [hrec] at hmap
      simp [Except.map] at hmap
      exact hmap
    simp only [hrec, Except.map, Except.toOption, Option.getD]
    exact C5_amended_days_open_nonneg (epochSecs 2024 3 1 0 0 0) 0
      [("created_date", JVal.str "2024-01-01T00:00:00Z")] rec hrec
      (by
        intro s t hs ht
        rw [hcd] at hs
        have hseq : "2024-01-01T00:00:00Z" = s := JVal.str.inj hs
        subst hseq
        have hpi : parseIso (rstripZ "2024-01-01T00:00:00Z") =
            some (epochSecs 2024 1 1 0 0 0) := by decide
        rw [hpi] at ht
        exact (Option.some.inj ht) ▸ (by decide))

/-- Claim C6: the status classification built inside
`fetch_vehicle_stats` agrees with the spec's total classification function on
every speed value and engine-state (with a missing state behaving as a
non-"Running" string), and the three anchor cases hold: speed 0 with engine
"Running" is idle, speed 5 with "Off" is moving, speed 0 with "Off" is
offline. -/
theorem C6_status_classification :
    (∀ (vid : String) (s : RawStat),
      (normalizeStat vid s).status =
        classifyStatus (s.speedMilesPerHour.getD 0) (s.engineState.getD "")) ∧
    classifyStatus 0 "Running" = "idle" ∧
    classifyStatus 5 "Off" = "moving" ∧
    classifyStatus 0 "Off" = "offline" := by
  refine ⟨?_, by decide, by decide, by decide⟩
  intro vid s
  rcases s with ⟨sp, fu, eh, od, es⟩
  cases es <;> simp [normalizeStat, classifyStatus]

/-- Claim C7: for every creation string whose (Z-stripped) ISO form parses to
a timestamp `t`, the days-open computation returns exactly the floor of
`(now - t) / 86400` seconds — the integer number of whole days between the
timestamp and the current time — with no warning; in particular
"2024-01-01T00:00:00Z" evaluated with now fixed at 2024-01-31T00:00:00Z
gives 30. -/
theorem C7_days_open_whole_days (s : String) (now t : Int)
    (h : parseIso (rstripZ s) = some t) :
    pyCalcDaysOpen now (JVal.str s) = .ok (Int.fdiv (now - t) 86400, false) ∧
    pyCalcDaysOpen (epochSecs 2024 1 31 0 0 0) (JVal.str "2024-01-01T00:00:00Z") =
      .ok (30, false) := by
  constructor
  · have hs : jFalsy (JVal.str s) = false := by
      simp only [jFalsy, beq_eq_false_iff_ne, ne_eq]
      intro he
      subst he
      rw [show rstripZ "" = "" from rfl] at h
      rw [show parseIso "" = none from rfl] at h
      cases h
    unfold pyCalcDaysOpen
    rw [hs]
    simp [h]
  · decide

/-- Claim C7, witness: the theorem applied at the spec's anchor instance. -/
theorem C7_witness :
    pyCalcDaysOpen (epochSecs 2024 1 31 0 0 0) (JVal.str "2024-01-01T00:00:00Z") =
      .ok (30, false) :=
  (C7_days_open_whole_days "2024-01-01T00:00:00Z" (epochSecs 2024 1 31 0 0 0)
    (epochSecs 2024 1 1 0 0 0) (by decide)).2

/-- Claim C8: on every non-empty string whose timestamp parse fails, the
days-open computation returns 0 with a logged warning, and on every string
input the computation returns normally — it never propagates an exception.
(For the empty string the code's falsy guard returns 0 before any parse is
attempted, without a warning.) -/
theorem C8_parse_failure_returns_zero (s : String) (now : Int) (hne : s ≠ "")
    (h : parseIso (rstripZ s) = none) :
    pyCalcDaysOpen now (JVal.str s) = .ok (0, true) ∧
    ∀ (s₂ : String) (now₂ : Int), (pyCalcDaysOpen now₂ (JVal.str s₂)).isOk = true := by
  constructor
  · have hs : jFalsy (JVal.str s) = false := by
      simp [jFalsy, hne]
    unfold pyCalcDaysOpen
    rw [hs]
    simp [h]
  · intro s₂ now₂
    unfold pyCalcDaysOpen
    by_cases h2 : jFalsy (JVal.str s₂)
    · simp [h2, Except.isOk, Except.toBool]
    · simp only [h2]
      cases hp : parseIso (rstripZ s₂) <;>
        simp [hp, Except.isOk, Except.toBool]

/-- Claim C8, witness: the theorem applied to "not-a-date". -/
theorem C8_witness :
    pyCalcDaysOpen 0 (JVal.str "not-a-date") = .ok (0, true) :=
  (C8_parse_failure_returns_zero "not-a-date" 0 (by decide) (by decide)).1

/-- Claim C9: alert generation equals, for every stats table, the
concatenation over rows (in table order) of that row's speeding alert (when
speed > 80) followed by its low-fuel alert (when fuel < 20); on a one-row
table with speed 90 and fuel 15 it yields exactly two alerts with the
speeding alert first. -/
theorem C9_alert_order :
    (∀ stats_df : List StatRow, generate_alerts stats_df = stats_df.flatMap rowAlerts) ∧
    generate_alerts [⟨"V1", 90, 15, 0, 0, "moving"⟩] =
      ["Vehicle V1: Speeding (90 mph)", "Vehicle V1: Low fuel (15%)"] := by
  constructor
  · intro stats_df
    unfold generate_alerts
    simp [generate_alerts_aux]
  · decide

/-- Claim C10: when the stats table is empty, the fleet metrics are the
all-zero mapping even for a non-empty vehicles table, so the reported
`total_vehicles` is 0 and differs from the size of the vehicles table. -/
theorem C10_empty_stats_zero_total (vehicles : List VehicleRow) (h : vehicles ≠ []) :
    calculate_fleet_metrics vehicles [] = zeroFleetMetrics ∧
    (calculate_fleet_metrics vehicles []).total_vehicles ≠ vehicles.length := by
  have hz : calculate_fleet_metrics vehicles [] = zeroFleetMetrics := by
    unfold calculate_fleet_metrics
    simp
  refine ⟨hz, ?_⟩
  rw [hz]
  intro hh
  exact h (List.length_eq_zero.mp hh.symm)

/-- A vehicle row with only an identifier, as `fetch_vehicles` would build it
from a minimal payload. -/
def sampleVehicle : VehicleRow :=
  { id := some (.str "V1"), name := none, vin := none, make := none
    model := none, year := none, license_plate := none, serial := none }

/-- Claim C10, witness: the theorem applied to a one-vehicle table. -/
theorem C10_witness :
    calculate_fleet_metrics [sampleVehicle] [] = zeroFleetMetrics ∧
    (calculate_fleet_metrics [sampleVehicle] []).total_vehicles ≠
      [sampleVehicle].length :=
  C10_empty_stats_zero_total [sampleVehicle] (by decide)
